import Mathlib

/-!
Verification of the fault-record-message-crawler scraping/ETL pipeline.

The Python sources (`utils.py`, `slack_scraper.py`, `github_api.py`,
`github_issue_scraper.py`) are shallowly embedded below: pure text
processing is translated function-by-function; the external collaborators
(the Slack client, the GitHub client, the fault-record HTTP API, and the
`marko` markdown library) are modelled as explicit environment parameters,
following the specification's list of excluded external components.
Python exceptions are modelled with `Except PyErr`; the file system used by
the checkpoint store is modelled as a map from file names to contents.
-/

/-- Python exception kinds that the embedded code can raise. -/
inductive PyErr where
  | keyError
  | indexError
  | typeError
  | valueError
deriving DecidableEq, Repr

/- ### Basic Python string machinery (on `List Char`) -/

/-- Fuel-driven replace-all, modelling Python `str.replace(pat, rep)`:
scans left to right, replacing non-overlapping occurrences.  The fuel is
the length of the scanned list, which suffices because every step consumes
at least one character. -/
def replaceAllAux (pat rep : List Char) : Nat → List Char → List Char
  | _, [] => []
  | 0, s => s
  | fuel + 1, c :: rest =>
    if pat.isPrefixOf (c :: rest) then
      rep ++ replaceAllAux pat rep fuel ((c :: rest).drop pat.length)
    else
      c :: replaceAllAux pat rep fuel rest

/-- Python `s.replace(pat, rep)` for a non-empty pattern. -/
def replaceAll (pat rep s : List Char) : List Char :=
  if pat = [] then s else replaceAllAux pat rep s.length s

/-- String-level wrapper for `replaceAll`. -/
def pyReplace (s pat rep : String) : String :=
  ⟨replaceAll pat.data rep.data s.data⟩

/-- Fuel-driven split, modelling Python `str.split(sep)` for a non-empty
separator: scans left to right, splitting at non-overlapping occurrences. -/
def splitSubAux (sep : List Char) : Nat → List Char → List Char → List (List Char)
  | 0, s, acc => [acc.reverse ++ s]
  | fuel + 1, s, acc =>
    match s with
    | [] => [acc.reverse]
    | c :: rest =>
      if sep.isPrefixOf s then
        acc.reverse :: splitSubAux sep fuel (s.drop sep.length) []
      else
        splitSubAux sep fuel rest (c :: acc)

/-- Python `s.split(sep)` (non-empty `sep`); always returns at least one
segment, like Python. -/
def splitSub (sep s : List Char) : List (List Char) :=
  splitSubAux sep s.length s []

/-- `splitSubAux` never returns the empty list (Python `split` always
returns at least one segment). -/
theorem splitSubAux_ne_nil (sep : List Char) :
    ∀ (fuel : Nat) (s acc : List Char), splitSubAux sep fuel s acc ≠ [] := by
  intro fuel
  induction fuel with
  | zero => intro s acc; simp [splitSubAux]
  | succ n ih =>
    intro s acc
    cases s with
    | nil => simp [splitSubAux]
    | cons c rest =>
      simp only [splitSubAux]
      by_cases h : sep.isPrefixOf (c :: rest)
      · simp [h]
      · simp [h, ih]

/-- `splitSub` never returns the empty list. -/
theorem splitSub_ne_nil (sep s : List Char) : splitSub sep s ≠ [] :=
  splitSubAux_ne_nil sep s.length s []

/-- The head of a Python `split` result, i.e. `s.split(sep)[0]`.  Indexing
at 0 never raises because `split` always returns at least one segment
(`splitSub_ne_nil`); the `[]` branch is unreachable. -/
def splitHead (sep s : List Char) : List Char :=
  match splitSub sep s with
  | h :: _ => h
  | [] => []

/-- Python list indexing `xs[i]`, raising `IndexError` when out of range. -/
def pyIndexList {α : Type} (xs : List α) (i : Nat) : Except PyErr α :=
  match xs.get? i with
  | some x => .ok x
  | none => .error .indexError

/-- Characters treated as whitespace by Python `str.strip()`. -/
def isPySpace (c : Char) : Bool :=
  c = ' ' ∨ c = '\t' ∨ c = '\n' ∨ c = '\r' ∨ c = '\x0b' ∨ c = '\x0c'

/-- Python `str.strip()`. -/
def pyStrip (s : List Char) : List Char :=
  ((s.dropWhile isPySpace).reverse.dropWhile isPySpace).reverse

/-- Python `str.lower()`; faithful for ASCII, which covers every string the
code compares after lowering ("successful"). -/
def pyLower (s : List Char) : List Char :=
  s.map Char.toLower

/- ### Checkpoint store (utils.write_to_file / utils.read_from_file) -/

/-- The result of `read_from_file`: either the first line of the file, or
the Python int `0` when the file does not exist. -/
inductive ReadResult where
  | intVal (n : Int)
  | strVal (s : String)
deriving DecidableEq, Repr

/-- The file system, modelled as a map from file names to contents. -/
def FileSys : Type := String → Option String

/-- A file system with no files. -/
def emptyFS : FileSys := fun _ => none

/-- utils.write_to_file: whole-file overwrite of `file_name` with `data`. -/
def write_to_file (fs : FileSys) (file_name data : String) : FileSys :=
  fun n => if n = file_name then some data else fs n

/-- Fuel-driven universal-newlines translation performed by Python
text-mode reads: every `\r\n` pair and every lone `\r` in the file
contents becomes a single `\n` before the program sees the text.  The
fuel is the length of the list; every step consumes at least one
character. -/
def univNewlinesAux : Nat → List Char → List Char
  | _, [] => []
  | 0, s => s
  | fuel + 1, c :: rest =>
    if c = '\r' then
      match rest with
      | '\n' :: rest2 => '\n' :: univNewlinesAux fuel rest2
      | _ => '\n' :: univNewlinesAux fuel rest
    else c :: univNewlinesAux fuel rest

/-- Universal-newlines translation of whole file contents. -/
def univNewlines (s : List Char) : List Char :=
  univNewlinesAux s.length s

/-- Python `f.readline()` on the translated contents: the prefix up to and
including the first newline (the whole contents when there is none). -/
def readlineChars : List Char → List Char
  | [] => []
  | c :: rest => if c = '\n' then ['\n'] else c :: readlineChars rest

/-- utils.read_from_file: opens the file in text mode (universal
newlines), returning its first line, or the int `0` when the file does
not exist (`FileNotFoundError` is treated as first run). -/
def read_from_file (fs : FileSys) (file_name : String) : ReadResult :=
  match fs file_name with
  | none => .intVal 0
  | some content => .strVal ⟨readlineChars (univNewlines content.data)⟩

/-- At any fuel, the translation leaves contents without carriage returns
unchanged. -/
theorem univNewlinesAux_eq_self :
    ∀ (fuel : Nat) (cs : List Char), '\r' ∉ cs → univNewlinesAux fuel cs = cs := by
  intro fuel
  induction fuel with
  | zero => intro cs h; cases cs <;> rfl
  | succ n ih =>
    intro cs h
    cases cs with
    | nil => rfl
    | cons c rest =>
      have hc : ¬c = '\r' := fun h2 => h (by simp [h2])
      have h2 : '\r' ∉ rest := fun hm => h (List.mem_cons_of_mem _ hm)
      simp [univNewlinesAux, hc, ih rest h2]

/-- Universal-newlines translation leaves contents without carriage
returns unchanged. -/
theorem univNewlines_eq_self (cs : List Char) (h : '\r' ∉ cs) :
    univNewlines cs = cs :=
  univNewlinesAux_eq_self cs.length cs h

/-- `readline` returns the whole contents when they contain no newline. -/
theorem readlineChars_eq_self (cs : List Char) (h : '\n' ∉ cs) :
    readlineChars cs = cs := by
  induction cs with
  | nil => rfl
  | cons c rest ih =>
    have hc : ¬c = '\n' := fun h2 => h (by simp [h2])
    have h2 : '\n' ∉ rest := fun hm => h (List.mem_cons_of_mem _ hm)
    simp [readlineChars, hc, ih h2]

/-- Claim C3 (amended): for every file system, key and non-empty value `v`
containing no line-ending character (neither `\n` nor `\r`), writing `v`
and reading it back returns `v`; and reading a key whose file does not
exist returns the int `0` default instead of raising. -/
theorem checkpoint_roundtrip (fs : FileSys) (k v k2 : String)
    (hv : v ≠ "") (hnl : '\n' ∉ v.data) (hcr : '\r' ∉ v.data)
    (hk2 : fs k2 = none) :
    read_from_file (write_to_file fs k v) k = .strVal v ∧
      read_from_file fs k2 = .intVal 0 := by
  constructor
  · obtain ⟨cs⟩ := v
    have hw : write_to_file fs k ⟨cs⟩ k = some ⟨cs⟩ := by simp [write_to_file]
    simp only [read_from_file, hw]
    rw [univNewlines_eq_self cs hcr, readlineChars_eq_self cs hnl]
  · simp [read_from_file, hk2]

/-- Witness for `checkpoint_roundtrip` at a concrete key and value. -/
theorem checkpoint_roundtrip_witness :
    read_from_file (write_to_file emptyFS "chan.txt" "1712345678.000100")
        "chan.txt" = .strVal "1712345678.000100" ∧
      read_from_file emptyFS "other.txt" = .intVal 0 :=
  checkpoint_roundtrip emptyFS "chan.txt" "1712345678.000100" "other.txt"
    (by decide) (by decide) (by decide) rfl

/-- Counterexample to claim C3 as stated: for the value "a\nb" (which
contains a newline), the round-trip returns only the first line "a\n",
not the written value. -/
theorem checkpoint_roundtrip_counterexample :
    read_from_file (write_to_file emptyFS "k.txt" "a\nb") "k.txt"
        = .strVal "a\n" ∧
      read_from_file (write_to_file emptyFS "k.txt" "a\nb") "k.txt"
        ≠ .strVal "a\nb" := by
  constructor
  · rfl
  · decide

/- ### GitHub driver checkpoint file names (C10) -/

/-- The checkpoint file name read at run start by
`github_issue_scraper.main`: `f"{owner}-{repo}.txt"`. -/
def github_checkpoint_read_name (owner repo : String) : String :=
  owner ++ "-" ++ repo ++ ".txt"

/-- The checkpoint file name written at run end by
`github_api.action_collect`: `f"{repo}-{owner}.txt"`. -/
def github_checkpoint_write_name (owner repo : String) : String :=
  repo ++ "-" ++ owner ++ ".txt"

/-- String concatenation acts as list concatenation on the data. -/
theorem stringDataAppend (a b : String) : (a ++ b).data = a.data ++ b.data := by
  cases a; cases b; rfl

/-- Claim C10 (amended): for owner and repo of equal length with
owner ≠ repo, the checkpoint file name read at run start and the one
written at run end differ, so on a file system where the read name is
absent, a run that writes the cursor followed by a run that reads it gets
the zero default rather than the written value.  (For unequal lengths the
two names can coincide, e.g. owner "x" and repo "x-x".) -/
theorem github_checkpoint_mismatch (owner repo cursor : String) (fs : FileSys)
    (hlen : owner.length = repo.length) (hne : owner ≠ repo)
    (habs : fs (github_checkpoint_read_name owner repo) = none) :
    github_checkpoint_read_name owner repo
        ≠ github_checkpoint_write_name owner repo ∧
      read_from_file
          (write_to_file fs (github_checkpoint_write_name owner repo) cursor)
          (github_checkpoint_read_name owner repo) = .intVal 0 := by
  have hnames : github_checkpoint_read_name owner repo
      ≠ github_checkpoint_write_name owner repo := by
    intro h
    apply hne
    have hdata : owner.data ++ "-".data ++ repo.data ++ ".txt".data
        = repo.data ++ "-".data ++ owner.data ++ ".txt".data := by
      have hd := congrArg String.data h
      unfold github_checkpoint_read_name github_checkpoint_write_name at hd
      rw [stringDataAppend, stringDataAppend, stringDataAppend] at hd
      rw [stringDataAppend, stringDataAppend, stringDataAppend] at hd
      exact hd
    have hdlen : owner.data.length = repo.data.length := hlen
    have hlen' : (owner.data ++ "-".data).length = (repo.data ++ "-".data).length := by
      rw [List.length_append, List.length_append, hdlen]
    rw [List.append_assoc (owner.data ++ "-".data),
        List.append_assoc (repo.data ++ "-".data)] at hdata
    have h1 := (List.append_inj hdata hlen').1
    have h2 := (List.append_inj h1 hdlen).1
    cases owner; cases repo
    exact congrArg String.mk h2
  refine ⟨hnames, ?_⟩
  simp only [read_from_file, write_to_file]
  rw [if_neg hnames, habs]

/-- Witness for `github_checkpoint_mismatch` at concrete owner and repo. -/
theorem github_checkpoint_mismatch_witness :
    github_checkpoint_read_name "octo" "repo"
        ≠ github_checkpoint_write_name "octo" "repo" ∧
      read_from_file
          (write_to_file emptyFS (github_checkpoint_write_name "octo" "repo") "3")
          (github_checkpoint_read_name "octo" "repo") = .intVal 0 :=
  github_checkpoint_mismatch "octo" "repo" "3" emptyFS rfl (by decide) rfl

/-- Counterexample to claim C10 as stated: for owner "x" and repo "x-x"
(distinct, but of unequal length) the two file names coincide, and the
cross-run round-trip does return the written value. -/
theorem github_checkpoint_mismatch_counterexample :
    ("x" : String) ≠ "x-x" ∧
      github_checkpoint_read_name "x" "x-x"
        = github_checkpoint_write_name "x" "x-x" ∧
      read_from_file
          (write_to_file emptyFS (github_checkpoint_write_name "x" "x-x") "7")
          (github_checkpoint_read_name "x" "x-x") = .strVal "7" := by
  refine ⟨by decide, rfl, ?_⟩
  rfl

/- ### Regex models for utils.py

`CLEANR = re.compile("<.*?>")` (non-greedy tag stripper) and the greedy
patterns `"<em>.*</em>"` / `"<code>.*</code>"` used by
`extract_source_signal_pair`, together with `re.findall` semantics:
left-to-right non-overlapping scanning, `.` not matching newline. -/

/-- Scans for the first `>` on the current line (a `.` in the pattern does
not match a newline); returns the remainder after it when found. -/
def findGtOnLine : List Char → Option (List Char)
  | [] => none
  | c :: rest =>
    if c = '>' then some rest
    else if c = '\n' then none
    else findGtOnLine rest

/-- Fuel-driven model of `re.sub("<.*?>", "", s)`: at each `<`, the lazy
`.*?` matches up to the first same-line `>`; matched spans are removed,
everything else is kept. -/
def removeMarkdownAux : Nat → List Char → List Char
  | _, [] => []
  | 0, s => s
  | fuel + 1, c :: rest =>
    if c = '<' then
      match findGtOnLine rest with
      | some rest2 => removeMarkdownAux fuel rest2
      | none => c :: removeMarkdownAux fuel rest
    else c :: removeMarkdownAux fuel rest

/-- utils.remove_markdown: strips `<...>` tags via the non-greedy CLEANR
pattern. -/
def remove_markdown (s : String) : String :=
  ⟨removeMarkdownAux s.data.length s.data⟩

/-- Whether the pattern occurs at position `i` of `s`. -/
def matchesAt (pat s : List Char) (i : Nat) : Bool :=
  pat.isPrefixOf (s.drop i)

/-- The first position of the pattern in `s`. -/
def firstOcc (pat s : List Char) : Option Nat :=
  (List.range (s.length + 1)).find? (matchesAt pat s)

/-- The last position `j ≥ i0` where the pattern occurs in `s`. -/
def lastOccFrom (pat s : List Char) (i0 : Nat) : Option Nat :=
  ((List.range (s.length + 1)).filter
    (fun j => decide (i0 ≤ j) && matchesAt pat s j)).getLast?

/-- Matches of the greedy pattern `opn.*cls` within one newline-free line:
the greedy `.*` extends the match from the first occurrence of `opn` to the
end of the last occurrence of `cls`, so the line yields at most one match
(in particular, several `opn...cls` spans on one line merge into a single
match). -/
def lineGreedyMatches (opn cls line : List Char) : List (List Char) :=
  match firstOcc opn line with
  | none => []
  | some i =>
    match lastOccFrom cls line (i + opn.length) with
    | none => []
    | some j => [(line.drop i).take (j + cls.length - i)]

/-- `re.findall` for the greedy pattern `opn.*cls`: since `.` does not
match a newline, matches are confined to single lines. -/
def findallGreedy (opn cls s : List Char) : List (List Char) :=
  ((splitSub ['\n'] s).map (lineGreedyMatches opn cls)).flatten

/- ### extract_source_signal_pair (utils.py) -/

/-- Modelled external collaborator: `marko.convert` (third-party markdown
converter).  For a single-paragraph input free of Markdown control syntax —
which covers the raw-HTML message bodies this code feeds it — it wraps the
text in a paragraph tag and appends a newline. -/
def marko_convert (s : String) : String :=
  "<p>" ++ s ++ "</p>" ++ "\n"

/-- The converted text inside `extract_source_signal_pair`:
`marko.convert(raw_text).replace("<p>", "").replace("</p>", "")`. -/
def convertedOf (raw : String) : String :=
  pyReplace (pyReplace (marko_convert raw) "<p>" "") "</p>" ""

/-- `list(filter(None, re.findall("<em>.*</em>", converted_text)))`. -/
def emMatchesOf (raw : String) : List (List Char) :=
  (findallGreedy "<em>".data "</em>".data (convertedOf raw).data).filter (· ≠ [])

/-- `filter(None, re.findall("<code>.*</code>", converted_text))`. -/
def codeMatchesOf (raw : String) : List (List Char) :=
  (findallGreedy "<code>".data "</code>".data (convertedOf raw).data).filter (· ≠ [])

/-- utils.extract_source_signal_pair.  Indexing the em-matches with `[-1]`
raises `IndexError` when there is no match; otherwise the last em-span
(markup stripped) is the source and each code-match contributes the text
before its first `:` (markup stripped).  The final `if source and signals`
returns the pair only when both sides are non-empty, and Python's implicit
fall-through returns `None` otherwise. -/
def extract_source_signal_pair (raw : String) :
    Except PyErr (Option (String × List String)) :=
  match (emMatchesOf raw).getLast? with
  | none => .error .indexError
  | some lastEm =>
    let source : String := remove_markdown ⟨lastEm⟩
    let signals : List String :=
      (codeMatchesOf raw).map fun el => ⟨splitHead [':'] (remove_markdown ⟨el⟩).data⟩
    if source ≠ "" ∧ signals ≠ [] then .ok (some (source, signals)) else .ok none

/-- Claim C2 (evaluation at the spec's example input): because the
patterns `<em>.*</em>` and `<code>.*</code>` are greedy, the two code
spans merge into the single match
`<code>sig1: desc</code> <code>sig2: desc</code>`, whose stripped text
splits at the first `:` to give just "sig1".  The code therefore returns
("ServiceA", ["sig1"]), not the pair ("ServiceA", ["sig1", "sig2"])
promised by the specification. -/
theorem extract_source_signal_pair_failing_eval :
    extract_source_signal_pair
        "<em>ServiceA</em> <code>sig1: desc</code> <code>sig2: desc</code>"
      = .ok (some ("ServiceA", ["sig1"])) := by
  rfl

/-- Counterexample to claim C7 as stated: on text with neither `<code>`
nor `<em>` spans, `extract_source_signal_pair` raises `IndexError` from
the `[-1]` indexing of the (empty) em-match list, instead of returning
null. -/
theorem extract_source_signal_pair_raises_without_em :
    extract_source_signal_pair "hello" = .error .indexError := by
  rfl

/-- Claim C7 (amended): whenever the converted text has at least one
`<em>.*</em>` match but either extracted side is empty — the last em-span
strips to the empty source, or there is no `<code>.*</code>` match, so the
signal list is empty — the function returns null rather than a partial
pair.  (When there is no `<em>` match at all it instead raises
`IndexError`, which its caller swallows.) -/
theorem extract_source_signal_pair_none_of_empty_side (raw : String)
    (lastEm : List Char)
    (hlast : (emMatchesOf raw).getLast? = some lastEm)
    (hempty : remove_markdown ⟨lastEm⟩ = "" ∨ codeMatchesOf raw = []) :
    extract_source_signal_pair raw = .ok none := by
  unfold extract_source_signal_pair
  rw [hlast]
  cases hempty with
  | inl hsrc => simp [hsrc]
  | inr hcode => simp [hcode]

/-- Witness for `extract_source_signal_pair_none_of_empty_side` on a
concrete message whose em-span strips to the empty source while a
code-span is present (the signal side being non-empty there). -/
theorem extract_source_signal_pair_none_witness :
    (emMatchesOf "<em></em> <code>sig: d</code>").getLast?
        = some "<em></em>".data ∧
      remove_markdown "<em></em>" = "" ∧
      codeMatchesOf "<em></em> <code>sig: d</code>" ≠ [] ∧
      extract_source_signal_pair "<em></em> <code>sig: d</code>" = .ok none :=
  ⟨by decide, by decide, by decide,
    extract_source_signal_pair_none_of_empty_side "<em></em> <code>sig: d</code>"
      "<em></em>".data (by decide) (Or.inl (by decide))⟩

/- ### replace_user_id (utils.py) -/

/-- The character class `[a-zA-Z0-9]` of the mention pattern. -/
def isAsciiAlnum (c : Char) : Bool :=
  decide (('a' ≤ c ∧ c ≤ 'z') ∨ ('A' ≤ c ∧ c ≤ 'Z') ∨ ('0' ≤ c ∧ c ≤ '9'))

/-- Fuel-driven model of `re.finditer(r"\<\@([a-zA-Z0-9]*)\>", s)`: scans
left to right; at each `<` it tries to match `<@`, a run of alphanumerics,
then `>`; successful matches are collected and scanning resumes after
them. -/
def findMentionsAux : Nat → List Char → List (List Char)
  | _, [] => []
  | 0, _ => []
  | fuel + 1, c :: rest =>
    if c = '<' then
      match rest with
      | '@' :: rest2 =>
        match rest2.dropWhile isAsciiAlnum with
        | '>' :: rest4 =>
          ('<' :: '@' :: (rest2.takeWhile isAsciiAlnum ++ ['>']))
            :: findMentionsAux fuel rest4
        | _ => findMentionsAux fuel rest
      | _ => findMentionsAux fuel rest
    else findMentionsAux fuel rest

/-- All `<@HANDLE>` mention matches of a string, in order. -/
def findMentions (s : List Char) : List (List Char) :=
  findMentionsAux s.length s

/-- Python dict key order: first-occurrence order with duplicates
dropped (later insertions of the same key overwrite the same value). -/
def dedupKeepFirst (l : List (List Char)) : List (List Char) :=
  l.foldl (fun acc k => if k ∈ acc then acc else acc ++ [k]) []

/-- `user_id[2:-1]`: the handle inside a `<@HANDLE>` match. -/
def mentionInner (m : List Char) : String :=
  ⟨(m.drop 2).dropLast⟩

/-- utils.replace_user_id: finds all `<@HANDLE>` matches, resolves each
distinct handle once (the `resolver` argument models
`get_user_info(client, ·)`, an excluded external lookup), then replaces
every occurrence of each match string sequentially. -/
def replace_user_id (resolver : String → String) (inp_str : String) : String :=
  let ms := findMentions inp_str.data
  if ms = [] then inp_str
  else
    ⟨(dedupKeepFirst ms).foldl
      (fun acc k => replaceAll k (resolver (mentionInner k)).data acc) inp_str.data⟩

/-- A string without mention matches is returned unchanged. -/
theorem replace_user_id_of_no_mentions (resolver : String → String)
    (t : String) (h : findMentions t.data = []) :
    replace_user_id resolver t = t := by
  simp [replace_user_id, h]

/-- Claim C8 (amended): `replace_user_id` is idempotent on every input
whose first pass leaves no mention syntax behind: if no `<@HANDLE>` match
remains in the output, applying the function again returns it unchanged.
(In general a replacement can re-create mention syntax — see the
counterexample — so the unconditional claim fails.) -/
theorem replace_user_id_idempotent (resolver : String → String) (s : String)
    (h : findMentions (replace_user_id resolver s).data = []) :
    replace_user_id resolver (replace_user_id resolver s)
      = replace_user_id resolver s :=
  replace_user_id_of_no_mentions resolver (replace_user_id resolver s) h

/-- A concrete resolver returning "X" for every handle. -/
def constReplacer : String → String := fun _ => "X"

/-- Witness for `replace_user_id_idempotent` on a concrete message. -/
theorem replace_user_id_idempotent_witness :
    findMentions (replace_user_id constReplacer "<@U1> hi").data = [] ∧
      replace_user_id constReplacer (replace_user_id constReplacer "<@U1> hi")
        = replace_user_id constReplacer "<@U1> hi" :=
  ⟨by decide, replace_user_id_idempotent constReplacer "<@U1> hi" (by decide)⟩

/-- Counterexample to claim C8 as stated: for the input `<@<@AB>B>` and a
resolver returning "X", the first pass yields `<@XB>` — the replacement
re-creates mention syntax from the surrounding text — and the second pass
yields "X", so applying the function twice differs from applying it
once. -/
theorem replace_user_id_not_idempotent :
    replace_user_id constReplacer (replace_user_id constReplacer "<@<@AB>B>")
      ≠ replace_user_id constReplacer "<@<@AB>B>" := by
  decide

/- ### remove_emojis (utils.py) -/

/-- The character class of utils.remove_emojis, transcribed range by
range. -/
def isEmojiChar (c : Char) : Bool :=
  let v := c.toNat
  decide ((0x1F600 ≤ v ∧ v ≤ 0x1F64F) ∨
    (0x1F300 ≤ v ∧ v ≤ 0x1F5FF) ∨
    (0x1F680 ≤ v ∧ v ≤ 0x1F6FF) ∨
    (0x1F1E0 ≤ v ∧ v ≤ 0x1F1FF) ∨
    (0x2500 ≤ v ∧ v ≤ 0x2BEF) ∨
    (0x2702 ≤ v ∧ v ≤ 0x27B0) ∨
    (0x24C2 ≤ v ∧ v ≤ 0x1F251) ∨
    (0x1F926 ≤ v ∧ v ≤ 0x1F937) ∨
    (0x10000 ≤ v ∧ v ≤ 0x10FFFF) ∨
    (0x2640 ≤ v ∧ v ≤ 0x2642) ∨
    (0x2600 ≤ v ∧ v ≤ 0x2B55) ∨
    v = 0x200D ∨ v = 0x23CF ∨ v = 0x23E9 ∨ v = 0x231A ∨
    v = 0xFE0F ∨ v = 0x3030)

/-- utils.remove_emojis: removes every character of the emoji class
(substituting runs of them with the empty string equals filtering). -/
def remove_emojis (s : String) : String :=
  ⟨s.data.filter (fun c => !isEmojiChar c)⟩

/- ### parse_timestamp (utils.py) -/

/-- The exact value of a parsed decimal literal: `num / 10 ^ exp`.  Slack
`ts` strings are short decimals, for which Python's binary `float` is
exact enough that the derived calendar date agrees with this exact
representation. -/
structure PyFloat where
  num : Int
  exp : Nat
deriving DecidableEq, Repr

/-- Python `float(s)` for plain decimal literals (optional sign, digits,
optional fractional part) — the form Slack `ts` strings take.  Other
strings raise `ValueError` (modelled as `none`); exponent and `inf`/`nan`
forms are outside the modelled fragment. -/
def pyFloat (s : String) : Option PyFloat :=
  let neg := match s.data with
    | '-' :: _ => true
    | _ => false
  let body := match s.data with
    | '-' :: r => r
    | '+' :: r => r
    | _ => s.data
  let digitsVal : List Char → Nat := fun cs =>
    cs.foldl (fun a c => a * 10 + (c.toNat - 48)) 0
  match splitSub ['.'] body with
  | [ip] =>
    if ip ≠ [] ∧ ip.all Char.isDigit then
      let n : Int := Int.ofNat (digitsVal ip)
      some { num := if neg then -n else n, exp := 0 }
    else none
  | [ip, fp] =>
    if (ip ≠ [] ∨ fp ≠ []) ∧ ip.all Char.isDigit ∧ fp.all Char.isDigit then
      let n : Int := Int.ofNat (digitsVal ip * 10 ^ fp.length + digitsVal fp)
      some { num := if neg then -n else n, exp := fp.length }
    else none
  | _ => none

/-- The decimal digit character for `n < 10`. -/
def digitChar (n : Nat) : Char := Char.ofNat (48 + n)

/-- Fuel-driven decimal rendering of a natural number. -/
def natDigitsAux : Nat → Nat → List Char
  | 0, _ => []
  | fuel + 1, n =>
    if n < 10 then [digitChar n]
    else natDigitsAux fuel (n / 10) ++ [digitChar (n % 10)]

/-- Decimal string of a natural number. -/
def natToStr (n : Nat) : String := ⟨natDigitsAux (n + 1) n⟩

/-- Zero-pads a decimal string on the left to width `k` (strftime `%Y`,
`%m`, `%d` padding). -/
def padZero (k : Nat) (s : String) : String :=
  ⟨List.replicate (k - s.data.length) '0' ++ s.data⟩

/-- Gregorian date of day number `zn` counted from 0000-03-01 (the
standard civil-from-days conversion used to model
`datetime.fromtimestamp(ts, pytz.UTC)`). -/
def civilFromDays (zn : Nat) : Nat × Nat × Nat :=
  let era := zn / 146097
  let doe := zn % 146097
  let yoe := (doe - doe / 1460 + doe / 36524 - doe / 146096) / 365
  let y := yoe + era * 400
  let doy := doe - (365 * yoe + yoe / 4 - yoe / 100)
  let mp := (5 * doy + 2) / 153
  let d := doy - (153 * mp + 2) / 5 + 1
  let m := if mp < 10 then mp + 3 else mp - 9
  (if m ≤ 2 then y + 1 else y, m, d)

/-- utils.parse_timestamp: the UTC calendar date "%Y-%m-%d" of a Unix
timestamp (`⌊ts / 86400⌋` days since the epoch, computed by floor
division on the exact decimal value); faithful for the nonnegative
timestamps Slack produces. -/
def parse_timestamp (ts : PyFloat) : String :=
  let z : Int := ts.num.fdiv ((10 : Int) ^ ts.exp * 86400)
  let zn : Nat := (z + 719468).toNat
  let ymd := civilFromDays zn
  padZero 4 (natToStr ymd.1) ++ "-" ++ padZero 2 (natToStr ymd.2.1) ++ "-"
    ++ padZero 2 (natToStr ymd.2.2)

/- ### Slack message model -/

/-- One entry of a message's `attachments` array; fields accessed with
`["title"]` / `["text"]` may be absent (then the access raises
`KeyError`). -/
structure Attachment where
  title : Option String
  text : Option String
deriving DecidableEq, Repr

/-- A raw Slack message as a dict: every field the code indexes with
`[...]` is optional (absence raises `KeyError`), and fields read with
`.get(...)` fall back to a default. -/
structure Message where
  ts : Option String
  thread_ts : Option String
  text : Option String
  user : Option String
  subtype : Option String
  reply_count : Option Nat
  reactions : Option (List String)
  attachments : Option (List Attachment)
deriving DecidableEq, Repr

/-- A parsed thread reply (the dicts built by `get_message_replies`). -/
structure ParsedReply where
  author : Int
  url : String
  created : String
  description : String
deriving DecidableEq, Repr

/-- A parsed message (the dicts built by `parse_user_message` /
`parse_bot_message`); user messages carry no `signals` key and messages
without replies no `updates` key, modelled as `none`. -/
structure ParsedMessage where
  url : String
  title : String
  reported_by : Int
  reported_date : String
  description : String
  signals : Option (List Int)
  updates : Option (List ParsedReply)
deriving DecidableEq, Repr

/-- The environment of excluded external collaborators: the `EMOJI_FLAG`
configuration value, the Slack user-info lookup (`get_user_info` with and
without `return_email`), the fault-record user-directory lookup
(`get_user_id`), and the Slack thread-replies call
(`client.conversations_replies(...)["messages"]`). -/
structure SlackEnv where
  emojiFlag : Option String
  userInfo : String → String
  userInfoEmail : String → String
  userIdByEmail : String → Int
  conversationsReplies : String → String → List Message

/-- utils.reactions_list: the reaction names of a message, empty when the
`reactions` key is absent (read with `.get`). -/
def reactions_list (m : Message) : List String :=
  m.reactions.getD []

/-- `EMOJI_FLAG in reactions_list(message)`: when the environment variable
is unset (`None`), membership in a list of strings is always false. -/
def emojiFlagIn (env : SlackEnv) (m : Message) : Bool :=
  match env.emojiFlag with
  | some e => (reactions_list m).contains e
  | none => false

/-- Python substring membership `pat in s`. -/
def containsSub (pat s : List Char) : Bool :=
  (List.range (s.length + 1)).any (fun i => pat.isPrefixOf (s.drop i))

/-- Python `s.startswith(pre)`. -/
def pyStartsWith (s pre : String) : Bool :=
  pre.data.isPrefixOf s.data

/-- The archive URL built for a message (channel id and the `ts` with its
dot removed interpolated into the f-string). -/
def slackMessageUrl (channel_id ts : String) : String :=
  "https://delphi-org.slack.com/archives/" ++ channel_id ++ "/p"
    ++ pyReplace ts "." ""

/- ### get_signal_ids (utils.py) -/

/-- The body of utils.get_signal_ids (the contents of its `try`).  After a
successful extraction the code calls `get_signals_url(source, signals)`,
which omits the third required positional argument `signals` of
`get_signals_url(source, fault_record_api_url, signals)`; CPython raises
`TypeError` at the call, so the HTTP query and response parse are
unreachable.  Unpacking a `None` extraction result into
`source, signals = ...` also raises `TypeError`. -/
def get_signal_ids_body (message : String) : Except PyErr (List Int) :=
  match extract_source_signal_pair message with
  | .error e => .error e
  | .ok none => .error .typeError
  | .ok (some _) => .error .typeError

/-- utils.get_signal_ids: the `try`/`except Exception` wrapper returning
the empty list on any exception. -/
def get_signal_ids (message : String) : List Int :=
  match get_signal_ids_body message with
  | .ok ids => ids
  | .error _ => []

/-- The body of `get_signal_ids` raises on every input (extraction either
raises or its result reaches the mis-called `get_signals_url`). -/
theorem get_signal_ids_body_always_errors (message : String) :
    ∃ e, get_signal_ids_body message = .error e := by
  unfold get_signal_ids_body
  cases h : extract_source_signal_pair message with
  | error e => exact ⟨e, rfl⟩
  | ok o => cases o <;> exact ⟨.typeError, rfl⟩

/-- `get_signal_ids` returns the empty list on every input. -/
theorem get_signal_ids_eq_nil (message : String) : get_signal_ids message = [] := by
  obtain ⟨e, he⟩ := get_signal_ids_body_always_errors message
  simp [get_signal_ids, he]

/- ### Reply fetching and message parsing (utils.py) -/

/-- One reply dict built inside the `get_message_replies` loop (author,
archive URL with thread parameters, created date, normalized text). -/
def parseReply (env : SlackEnv) (channel_id : String) (reply : Message) :
    Except PyErr ParsedReply :=
  match reply.user with
  | none => .error .keyError
  | some u =>
    match reply.ts with
    | none => .error .keyError
    | some rts =>
      match reply.thread_ts with
      | none => .error .keyError
      | some tts =>
        match pyFloat rts with
        | none => .error .valueError
        | some q =>
          match reply.text with
          | none => .error .keyError
          | some tx =>
            .ok { author := env.userIdByEmail (env.userInfoEmail u),
                  url := slackMessageUrl channel_id rts ++ "?thread_ts=" ++ tts
                    ++ "&cid=" ++ channel_id,
                  created := parse_timestamp q,
                  description := replace_user_id env.userInfo (remove_emojis tx) }

/-- The loop of `get_message_replies`, parsing each reply in order; a
failure on one reply propagates (nothing catches it there). -/
def repliesLoop (env : SlackEnv) (channel_id : String) :
    List Message → Except PyErr (List ParsedReply)
  | [] => .ok []
  | r :: rest =>
    match parseReply env channel_id r with
    | .error e => .error e
    | .ok pr =>
      match repliesLoop env channel_id rest with
      | .error e => .error e
      | .ok prs => .ok (pr :: prs)

/-- utils.get_message_replies: parses the thread replies, skipping the
first entry (`["messages"][1:]`), which repeats the parent message. -/
def get_message_replies (env : SlackEnv) (channel_id parent_message_ts : String) :
    Except PyErr (List ParsedReply) :=
  repliesLoop env channel_id
    ((env.conversationsReplies channel_id parent_message_ts).drop 1)

/-- utils.parse_user_message: maps a plain message to a record dict —
title is the text before the first `.`, description the full normalized
text, author resolved through the identity lookup.  Missing `ts`, `text`
or `user` keys raise `KeyError`; an unparsable `ts` raises `ValueError`. -/
def parse_user_message (env : SlackEnv) (channel_id : String) (message : Message) :
    Except PyErr ParsedMessage :=
  match message.ts with
  | none => .error .keyError
  | some ts =>
    match message.text with
    | none => .error .keyError
    | some tx =>
      match message.user with
      | none => .error .keyError
      | some u =>
        match pyFloat ts with
        | none => .error .valueError
        | some q =>
          .ok { url := slackMessageUrl channel_id ts,
                title := replace_user_id env.userInfo
                  ⟨splitHead ['.'] (remove_emojis tx).data⟩,
                reported_by := env.userIdByEmail (env.userInfoEmail u),
                reported_date := parse_timestamp q,
                description := replace_user_id env.userInfo (remove_emojis tx),
                signals := none,
                updates := none }

/-- utils.parse_bot_message: maps an automated report — title is the
segment after the first `": "` of the first attachment's title (raising
`IndexError` when there is no `": "`), description joins the body lines
after the first two, author is the fixed placeholder id 1, and signals
come from `get_signal_ids` on the attachment body. -/
def parse_bot_message (env : SlackEnv) (channel_id : String) (message : Message) :
    Except PyErr ParsedMessage :=
  match message.ts with
  | none => .error .keyError
  | some ts =>
    match message.attachments with
    | none => .error .keyError
    | some [] => .error .indexError
    | some (a0 :: _) =>
      match a0.title with
      | none => .error .keyError
      | some tt =>
        match pyIndexList (splitSub (": ".data) (remove_emojis tt).data) 1 with
        | .error e => .error e
        | .ok titleSeg =>
          match pyFloat ts with
          | none => .error .valueError
          | some q =>
            match a0.text with
            | none => .error .keyError
            | some atext =>
              .ok { url := slackMessageUrl channel_id ts,
                    title := replace_user_id env.userInfo ⟨titleSeg⟩,
                    reported_by := 1,
                    reported_date := parse_timestamp q,
                    description := replace_user_id env.userInfo
                      ⟨pyStrip (List.intercalate " ".data
                        ((splitSub ['\n'] (remove_emojis atext).data).drop 2))⟩,
                    signals := some (get_signal_ids atext),
                    updates := none }

/- ### process_conversation_history (utils.py) -/

/-- The bot-message branch of the processing loop (the contents of its
`try`): skip reports whose first attachment title contains "successful"
(case-insensitive), otherwise parse and, when `reply_count > 1`, attach the
thread replies.  A message without an `attachments` key raises `KeyError`;
one with an empty attachments list raises `IndexError`. -/
def botBranch (env : SlackEnv) (channel_id : String) (m : Message) :
    Except PyErr (List ParsedMessage) :=
  match m.attachments with
  | none => .error .keyError
  | some [] => .error .indexError
  | some (a0 :: _) =>
    match a0.title with
    | none => .error .keyError
    | some tt =>
      if containsSub "successful".data (pyLower tt.data) then .ok []
      else
        match parse_bot_message env channel_id m with
        | .error e => .error e
        | .ok pm =>
          match m.reply_count with
          | some n =>
            if n > 1 then
              match m.ts with
              | none => .error .keyError
              | some ts =>
                match get_message_replies env channel_id ts with
                | .error e => .error e
                | .ok reps => .ok [{ pm with updates := some reps }]
            else .ok [pm]
          | none => .ok [pm]

/-- One iteration of the `process_conversation_history` loop: channel
notifications are skipped; a non-bot message is parsed only when it
carries the flag reaction or the channel is the hard-coded override
channel (parse failures there are not caught); a bot message runs
`botBranch` with `except KeyError` skipping that item only — though the
handler's own log f-string reads `conversation_history[i]['ts']`, which
re-raises `KeyError` out of the handler when the `ts` key is missing. -/
def processItem (env : SlackEnv) (channel_id : String) (m : Message) :
    Except PyErr (List ParsedMessage) :=
  if pyStartsWith (m.subtype.getD "") "channel_" then .ok []
  else if m.subtype.getD "" ≠ "bot_message" then
    if emojiFlagIn env m ∨ channel_id = "C0130CSQRN3" then
      match parse_user_message env channel_id m with
      | .error e => .error e
      | .ok pm =>
        match m.reply_count with
        | some _ =>
          match m.ts with
          | none => .error .keyError
          | some ts =>
            match get_message_replies env channel_id ts with
            | .error e => .error e
            | .ok reps => .ok [{ pm with updates := some reps }]
        | none => .ok [pm]
    else .ok []
  else
    match botBranch env channel_id m with
    | .ok l => .ok l
    | .error .keyError =>
      match m.ts with
      | none => .error .keyError
      | some _ => .ok []
    | .error e => .error e

/-- The accumulating loop of `process_conversation_history`; an uncaught
exception on any item aborts the whole loop. -/
def processLoop (env : SlackEnv) (channel_id : String) :
    List Message → Except PyErr (List ParsedMessage)
  | [] => .ok []
  | m :: rest =>
    match processItem env channel_id m with
    | .error e => .error e
    | .ok l =>
      match processLoop env channel_id rest with
      | .error e => .error e
      | .ok ls => .ok (l ++ ls)

/-- utils.process_conversation_history: runs the loop, then returns the
parsed messages together with `conversation_history[-1]["ts"]` (raising
`IndexError` on an empty batch). -/
def process_conversation_history (env : SlackEnv) (channel_id : String)
    (conversation_history : List Message) :
    Except PyErr (List ParsedMessage × String) :=
  match processLoop env channel_id conversation_history with
  | .error e => .error e
  | .ok parsed =>
    match conversation_history.getLast? with
    | none => .error .indexError
    | some last =>
      match last.ts with
      | none => .error .keyError
      | some t => .ok (parsed, t)

/- ### get_conversation_history (utils.py) -/

/-- The accumulation of `get_conversation_history`: the first call and
each `has_more` continuation append their `messages` page to the running
list; the session with the (excluded, external) Slack client is modelled
as the list of pages it returns until `has_more` is false. -/
def fetchLoop (acc : List Message) : List (List Message) → List Message
  | [] => acc
  | p :: rest => fetchLoop (acc ++ p) rest

/-- utils.get_conversation_history: accumulates all pages, then reverses
the accumulated list exactly once (`all_messages[::-1]`) after pagination
terminates. -/
def get_conversation_history (pages : List (List Message)) : List Message :=
  (fetchLoop [] pages).reverse

/-- The accumulation concatenates the pages in order. -/
theorem fetchLoop_eq (pages : List (List Message)) :
    ∀ acc, fetchLoop acc pages = acc ++ pages.flatten := by
  induction pages with
  | nil => intro acc; simp [fetchLoop]
  | cons p rest ih => intro acc; simp [fetchLoop, ih]

/-- Claim C1: for every conversation batch (any list of pages delivered by
the API) the fetcher returns exactly the reversal, performed once after
pagination, of the concatenation of all pages — never a per-page reversal —
and when the API delivers the batch newest-first (strictly descending by
any timestamp measure), the result is strictly chronologically
ascending. -/
theorem get_conversation_history_ascending (pages : List (List Message))
    (tsVal : Message → Nat)
    (hdesc : pages.flatten.Pairwise (fun a b => tsVal b < tsVal a)) :
    get_conversation_history pages = pages.flatten.reverse ∧
      (get_conversation_history pages).Pairwise (fun a b => tsVal a < tsVal b) := by
  have he : get_conversation_history pages = pages.flatten.reverse := by
    unfold get_conversation_history
    rw [fetchLoop_eq]
    simp
  refine ⟨he, ?_⟩
  rw [he]
  exact List.pairwise_reverse.mpr hdesc

/- ### Concrete sample data for witnesses and counterexamples -/

/-- A concrete environment: flag emoji configured, constant identity
resolution, no thread replies. -/
def sampleEnv : SlackEnv :=
  { emojiFlag := some "rotating_light",
    userInfo := fun _ => "Jane Doe (jane@example.org)",
    userInfoEmail := fun _ => "jane@example.org",
    userIdByEmail := fun _ => 7,
    conversationsReplies := fun _ _ => [] }

/-- A plain message without the flag reaction. -/
def msgPlainNoFlag : Message :=
  { ts := some "1.0", thread_ts := none, text := some "all good", user := some "U1",
    subtype := none, reply_count := none, reactions := some ["eyes"],
    attachments := none }

/-- A plain message carrying the flag reaction. -/
def msgPlainFlagged : Message :=
  { ts := some "2.5", thread_ts := none, text := some "db down. details",
    user := some "U2", subtype := none, reply_count := none,
    reactions := some ["rotating_light"], attachments := none }

/-- The newest message of the C1 witness batch. -/
def msgNewest : Message :=
  { ts := some "20.55", thread_ts := none, text := some "second", user := some "U1",
    subtype := none, reply_count := none, reactions := none, attachments := none }

/-- The oldest message of the C1 witness batch. -/
def msgOldest : Message :=
  { ts := some "1.0", thread_ts := none, text := some "first", user := some "U1",
    subtype := none, reply_count := none, reactions := none, attachments := none }

/-- Witness for `get_conversation_history_ascending`: a two-page batch
delivered newest-first comes back reversed once, in ascending order. -/
theorem get_conversation_history_ascending_witness :
    get_conversation_history [[msgNewest], [msgOldest]]
        = ([[msgNewest], [msgOldest]] : List (List Message)).flatten.reverse ∧
      (get_conversation_history [[msgNewest], [msgOldest]]).Pairwise
        (fun a b => (a.ts.getD "").length < (b.ts.getD "").length) :=
  get_conversation_history_ascending [[msgNewest], [msgOldest]]
    (fun m => (m.ts.getD "").length) (by decide)

/- ### Claim C4: the two-message filtering and checkpoint scenario -/

/-- A plain message with its `ts`, `text` and `user` keys present and a
parsable timestamp parses successfully. -/
theorem parse_user_message_ok (env : SlackEnv) (channel_id : String)
    (m : Message) (t x u : String) (q : PyFloat)
    (hts : m.ts = some t) (htext : m.text = some x) (huser : m.user = some u)
    (hq : pyFloat t = some q) :
    parse_user_message env channel_id m
      = .ok { url := slackMessageUrl channel_id t,
              title := replace_user_id env.userInfo
                ⟨splitHead ['.'] (remove_emojis x).data⟩,
              reported_by := env.userIdByEmail (env.userInfoEmail u),
              reported_date := parse_timestamp q,
              description := replace_user_id env.userInfo (remove_emojis x),
              signals := none,
              updates := none } := by
  simp only [parse_user_message, hts, htext, huser, hq]

/-- Claim C4: for a two-message batch whose first message is plain
(non-bot, non-system) without the flag reaction and whose second is plain
with it (in a channel other than the hard-coded override channel, with the
second message structurally well-formed and without a reply thread),
processing emits a parsed record only for message 2, and the returned
cursor — the value the driver writes as the checkpoint — is message 2's
timestamp. -/
theorem process_two_message_batch (env : SlackEnv) (channel_id : String)
    (m1 m2 : Message) (t x u : String) (q : PyFloat)
    (hch : channel_id ≠ "C0130CSQRN3")
    (h1sys : pyStartsWith (m1.subtype.getD "") "channel_" = false)
    (h1bot : m1.subtype.getD "" ≠ "bot_message")
    (h1flag : emojiFlagIn env m1 = false)
    (h2sys : pyStartsWith (m2.subtype.getD "") "channel_" = false)
    (h2bot : m2.subtype.getD "" ≠ "bot_message")
    (h2flag : emojiFlagIn env m2 = true)
    (hts : m2.ts = some t) (htext : m2.text = some x) (huser : m2.user = some u)
    (hq : pyFloat t = some q) (hrc : m2.reply_count = none) :
    ∃ pm, parse_user_message env channel_id m2 = .ok pm ∧
      process_conversation_history env channel_id [m1, m2] = .ok ([pm], t) := by
  have hitem1 : processItem env channel_id m1 = .ok [] := by
    simp [processItem, h1sys, h1bot, h1flag, hch]
  have hp := parse_user_message_ok env channel_id m2 t x u q hts htext huser hq
  refine ⟨_, hp, ?_⟩
  have hitem2 : processItem env channel_id m2
      = .ok [{ url := slackMessageUrl channel_id t,
               title := replace_user_id env.userInfo
                 ⟨splitHead ['.'] (remove_emojis x).data⟩,
               reported_by := env.userIdByEmail (env.userInfoEmail u),
               reported_date := parse_timestamp q,
               description := replace_user_id env.userInfo (remove_emojis x),
               signals := none,
               updates := none }] := by
    simp [processItem, h2sys, h2bot, h2flag, hp, hrc]
  simp [process_conversation_history, processLoop, hitem1, hitem2, hts,
    List.getLast?]

/-- Witness for `process_two_message_batch` on the concrete two-message
batch: only the flagged message is emitted and the cursor is its
timestamp. -/
theorem process_two_message_batch_witness :
    ∃ pm, parse_user_message sampleEnv "CH1" msgPlainFlagged = .ok pm ∧
      process_conversation_history sampleEnv "CH1" [msgPlainNoFlag, msgPlainFlagged]
        = .ok ([pm], "2.5") :=
  process_two_message_batch sampleEnv "CH1" msgPlainNoFlag msgPlainFlagged
    "2.5" "db down. details" "U2" { num := 25, exp := 1 } (by decide) (by decide)
    (by decide) (by decide) (by decide) (by decide) (by decide) rfl rfl rfl
    rfl rfl

/- ### Claim C5: the Signal Resolver swallows every exception -/

/-- Every successfully parsed bot message carries `signals = some []`
(the resolver's output, which is always empty). -/
theorem parse_bot_message_signals (env : SlackEnv) (channel_id : String)
    (m : Message) (pm : ParsedMessage)
    (hb : parse_bot_message env channel_id m = .ok pm) :
    pm.signals = some [] := by
  unfold parse_bot_message at hb
  repeat' (first | exact Except.noConfusion hb | split at hb)
  have h := Except.ok.inj hb
  rw [← h]
  simp [get_signal_ids_eq_nil]

/-- Claim C5: `get_signal_ids` never propagates an exception — whenever
its body raises (during extraction, URL construction, the HTTP query or
response parsing), the `except Exception` wrapper returns the empty list —
and record emission still proceeds: every successfully parsed bot message
carries `signals: []`. -/
theorem signal_resolver_never_propagates (message : String) (e : PyErr)
    (he : get_signal_ids_body message = .error e)
    (env : SlackEnv) (channel_id : String) (m : Message) (pm : ParsedMessage)
    (hb : parse_bot_message env channel_id m = .ok pm) :
    get_signal_ids message = [] ∧ pm.signals = some [] :=
  ⟨by simp [get_signal_ids, he], parse_bot_message_signals env channel_id m pm hb⟩

/-- A bot report message with a well-formed attachment. -/
def botReportMsg : Message :=
  { ts := some "100.5", thread_ts := none, text := none, user := none,
    subtype := some "bot_message", reply_count := none, reactions := none,
    attachments := some [{ title := some "Failed: nightly import",
                           text := some "header1\nheader2\ndisk full" }] }

/-- The record `parse_bot_message` produces for `botReportMsg`. -/
def botParsedSample : ParsedMessage :=
  { url := "https://delphi-org.slack.com/archives/CH1/p1005",
    title := "nightly import",
    reported_by := 1,
    reported_date := "1970-01-01",
    description := "disk full",
    signals := some [],
    updates := none }

/-- Witness for `signal_resolver_never_propagates` on a concrete message
(whose extraction raises `IndexError`) and a concrete bot report. -/
theorem signal_resolver_never_propagates_witness :
    get_signal_ids_body "unstructured text" = .error .indexError ∧
      parse_bot_message sampleEnv "CH1" botReportMsg = .ok botParsedSample ∧
      (get_signal_ids "unstructured text" = [] ∧ botParsedSample.signals = some []) :=
  ⟨rfl, rfl,
    signal_resolver_never_propagates "unstructured text" .indexError rfl
      sampleEnv "CH1" botReportMsg botParsedSample rfl⟩

/- ### Claim C6: failure isolation within a batch -/

/-- A flagged plain message whose `text` key is missing. -/
def badFlaggedMsg : Message :=
  { ts := some "3.0", thread_ts := none, text := none, user := some "U3",
    subtype := none, reply_count := none, reactions := some ["rotating_light"],
    attachments := none }

/-- Counterexample to claim C6 as stated: a structural failure (missing
`text` key) on a flagged plain user message is not caught — the whole
batch aborts with `KeyError` and the following well-formed message is
never processed.  Only the bot branch catches `KeyError`. -/
theorem user_parse_failure_aborts_batch :
    process_conversation_history sampleEnv "CH1" [badFlaggedMsg, msgPlainFlagged]
      = .error .keyError := by
  rfl

/-- The processing loop distributes over batch concatenation. -/
theorem processLoop_append (env : SlackEnv) (channel_id : String)
    (a b : List Message) :
    processLoop env channel_id (a ++ b)
      = match processLoop env channel_id a with
        | .error e => .error e
        | .ok la =>
          match processLoop env channel_id b with
          | .error e => .error e
          | .ok lb => .ok (la ++ lb) := by
  induction a with
  | nil =>
    simp only [List.nil_append, processLoop]
    cases processLoop env channel_id b with
    | error e => rfl
    | ok lb => simp
  | cons m rest ih =>
    simp only [List.cons_append, processLoop]
    cases processItem env channel_id m with
    | error e => rfl
    | ok l =>
      simp only [List.append_eq]
      rw [ih]
      cases processLoop env channel_id rest with
      | error e => rfl
      | ok la =>
        cases processLoop env channel_id b with
        | error e => rfl
        | ok lb => simp

/-- Claim C6 (amended): a structural `KeyError` on a bot-generated item
that still carries its `ts` key — e.g. a missing attachment — causes only
that item to be skipped: the batch result is the same as if the item were
absent (stated for items that are not last, so the returned cursor is
unaffected; the `ts` key is required because the handler's log line reads
it and re-raises when it is missing).  For plain user messages no such
isolation exists; see the counterexample, where a structural failure
aborts the whole batch. -/
theorem bot_parse_failure_skips_item (env : SlackEnv) (channel_id : String)
    (pre post : List Message) (m : Message) (ts0 : String)
    (hsub : m.subtype.getD "" = "bot_message")
    (hts : m.ts = some ts0)
    (hbot : botBranch env channel_id m = .error .keyError)
    (hpost : post ≠ []) :
    process_conversation_history env channel_id (pre ++ m :: post)
      = process_conversation_history env channel_id (pre ++ post) := by
  have hsw : pyStartsWith "bot_message" "channel_" = false := by decide
  have hitem : processItem env channel_id m = .ok [] := by
    simp [processItem, hsub, hsw, hbot, hts]
  have hmid : processLoop env channel_id (m :: post)
      = processLoop env channel_id post := by
    simp only [processLoop, hitem]
    cases processLoop env channel_id post with
    | error e => rfl
    | ok ls => simp
  have hloop : processLoop env channel_id (pre ++ m :: post)
      = processLoop env channel_id (pre ++ post) := by
    rw [processLoop_append, processLoop_append, hmid]
  have hlast : (pre ++ m :: post).getLast? = (pre ++ post).getLast? := by
    rw [List.getLast?_append_cons]
    cases post with
    | nil => exact absurd rfl hpost
    | cons b bs =>
      rw [List.getLast?_cons_cons, List.getLast?_append_cons]
  unfold process_conversation_history
  rw [hloop, hlast]

/-- A bot message whose `attachments` key is missing. -/
def botMissingAttMsg : Message :=
  { ts := some "4.0", thread_ts := none, text := none, user := none,
    subtype := some "bot_message", reply_count := none, reactions := none,
    attachments := none }

/-- Witness for `bot_parse_failure_skips_item`: dropping the malformed bot
message from a concrete batch leaves the result unchanged. -/
theorem bot_parse_failure_skips_item_witness :
    process_conversation_history sampleEnv "CH1"
        ([] ++ botMissingAttMsg :: [msgPlainFlagged])
      = process_conversation_history sampleEnv "CH1" ([] ++ [msgPlainFlagged]) :=
  bot_parse_failure_skips_item sampleEnv "CH1" [] [msgPlainFlagged]
    botMissingAttMsg "4.0" rfl rfl rfl (by decide)

/- ### Claim C9: successful automated reports are skipped -/

/-- Claim C9: a bot-generated message whose first attachment title
contains "successful" in any letter case is skipped by classification —
the item contributes no fault record and no error. -/
theorem successful_bot_report_skipped (env : SlackEnv) (channel_id : String)
    (m : Message) (a0 : Attachment) (rest : List Attachment) (tt : String)
    (hsub : m.subtype.getD "" = "bot_message")
    (hatt : m.attachments = some (a0 :: rest))
    (htitle : a0.title = some tt)
    (hsucc : containsSub "successful".data (pyLower tt.data) = true) :
    processItem env channel_id m = .ok [] := by
  have hsw : pyStartsWith "bot_message" "channel_" = false := by decide
  simp [processItem, hsub, hsw, botBranch, hatt, htitle, hsucc]

/-- The attachment of the successful-run report. -/
def successAtt : Attachment :=
  { title := some "successful: nightly job", text := some "h1\nh2\nbody" }

/-- A bot message reporting a successful run. -/
def successBotMsg : Message :=
  { ts := some "6.0", thread_ts := none, text := none, user := none,
    subtype := some "bot_message", reply_count := none, reactions := none,
    attachments := some [successAtt] }

/-- Witness for `successful_bot_report_skipped` on the spec's example
title "successful: nightly job". -/
theorem successful_bot_report_skipped_witness :
    processItem sampleEnv "CH1" successBotMsg = .ok [] :=
  successful_bot_report_skipped sampleEnv "CH1" successBotMsg successAtt []
    "successful: nightly job" rfl rfl rfl (by decide)
